import Mathlib

/-!
Shallow embedding of the auctionPal Solana program
(src/program/src/processor.rs) and proofs about its four transitions
(Exhibit/Create, Bid, Cancel, Close).

Modelling conventions:
* `Pubkey` is `Nat`; `Pubkey.default` is `0` (Rust `Pubkey::default()`).
* The SPL-token custody service is an external collaborator.  Each call the
  processor issues (`transfer`, `set_authority`, `close_account`) is recorded
  as a `TokenOp`; an oracle `env : TokenOp → Bool` decides whether the call
  succeeds.  A call whose `Result` the source checks with `?` propagates
  failure; a call whose `Result` the source drops (no `?` on the
  `invoke_signed`) is recorded together with its outcome and execution
  continues either way, exactly as in the source.
* The host guarantees all-or-nothing transaction semantics, so a transition
  that returns `Except.error` has no observable effect; the `Except` result
  type models this directly (state is only produced on success).
* `u64` values are `Nat` (with explicit `< 2^64` checks where the source
  performs `checked_add`); the `i64` timestamp arithmetic of
  `clock.unix_timestamp.add(auction_duration_sec as i64)` is modelled with an
  explicit cast and wrap-around.
-/

abbrev Pubkey := Nat

/-- Rust `Pubkey::default()`: the all-zeroes identity, used by the program as
the "no bidder yet" sentinel. -/
def Pubkey.default : Pubkey := 0

/-- One call issued to the SPL-token custody service:
`transfer(source, destination, authority, amount)`,
`set_authority(account, new_authority, current_authority)`,
`close_account(account, destination, authority)`. -/
inductive TokenOp where
  | transfer (source : Pubkey) (destination : Pubkey) (authority : Pubkey) (amount : Nat)
  | setAuthority (account : Pubkey) (newAuthority : Pubkey) (currentAuthority : Pubkey)
  | closeAccount (account : Pubkey) (destination : Pubkey) (authority : Pubkey)
deriving DecidableEq, Repr

/-- Modelled from the spec: the custom error enum of the program
(src/program/src/error.rs is not part of the sources given; the variants are
exactly those the processor constructs). -/
inductive AuctionError where
  | NotRentExempt
  | InactiveAuction
  | ActiveAuction
  | InsufficientBidPrice
  | InvalidInstruction
  | AlreadyBid
  | AmountOverflow
deriving DecidableEq, Repr

/-- The error type of a transition: the `solana_program::ProgramError`
variants the processor uses, the program's own errors (via
`AuctionError::into`), and failure of a checked custody call (the error the
token program returned through `invoke`/`invoke_signed` with `?`). -/
inductive ProgramError where
  | MissingRequiredSignature
  | AccountAlreadyInitialized
  | InvalidAccountData
  | UninitializedAccount
  | AuctionErr (e : AuctionError)
  | CustodyFailure (op : TokenOp)
deriving DecidableEq, Repr

/-- The persisted Auction record (src/program/src/state.rs is not part of the
sources given; the fields are exactly those the processor reads and writes,
matching the spec's Auction Record data model). -/
structure Auction where
  is_initialized : Bool
  exhibitor_pubkey : Pubkey
  exhibiting_nft_temp_pubkey : Pubkey
  exhibitor_ft_receiving_pubkey : Pubkey
  price : Nat
  end_at : Int
  highest_bidder_pubkey : Pubkey
  highest_bidder_ft_temp_pubkey : Pubkey
  highest_bidder_ft_returning_pubkey : Pubkey
deriving DecidableEq, Repr

/-- Modelled from the spec: `Auction::unpack` (the `Pack` trait's checked
unpack, src/program/src/state.rs not in the sources) returns the record only
when it is initialized and fails with `UninitializedAccount` otherwise. -/
def Auction.unpack (a : Auction) : Except ProgramError Auction :=
  if a.is_initialized then Except.ok a else Except.error ProgramError.UninitializedAccount

/-- A participant account reference as the processor sees it: its address and
whether the request was signed by it. -/
structure AccountInfo where
  key : Pubkey
  is_signer : Bool
deriving DecidableEq, Repr

/-- Modelled from the spec: the Derived Authority, computed in the source by
the external `Pubkey::find_program_address(&[b"escrow"], program_id)`; a
deterministic keyless identity derived from the program's identity plus the
fixed label.  Only its determinism matters to the proofs, so it is modelled
as a fixed function of the program id. -/
def find_program_address (program_id : Pubkey) : Pubkey :=
  program_id + 1

/-- Rust `u64 as i64`: reinterpret the unsigned value as a signed 64-bit
value (two's complement). -/
def u64_as_i64 (x : Nat) : Int :=
  if x < 2 ^ 63 then (x : Int) else (x : Int) - 2 ^ 64

/-- Wrap an integer into the `i64` range (two's-complement wrap-around, the
behaviour of `i64::add` when overflow checks are off). -/
def i64_wrap (x : Int) : Int :=
  (x + 2 ^ 63) % 2 ^ 64 - 2 ^ 63

/-- `i64` addition with wrap-around. -/
def i64_add (a b : Int) : Int :=
  i64_wrap (a + b)

/-- Rust `u64::checked_add`. -/
def checked_add_u64 (a b : Nat) : Option Nat :=
  if a + b < 2 ^ 64 then some (a + b) else none

/-- The observable result of a terminal transition (Cancel or Close): the
custody calls issued with their outcomes, the exhibitor's final storage
balance, and the escrow record account's final balance and data (`none` means
the record was destroyed). -/
structure SettleResult where
  ops : List (TokenOp × Bool)
  exhibitor_lamports : Nat
  escrow_lamports : Nat
  escrow_data : Option Auction
deriving Repr

/-- `Processor::close_temporary_ft`: issues a `close_account` of the highest
bidder's temporary FT account with the reclaimed balance going to the highest
bidder.  The source drops the `Result` of the `invoke_signed` (no `?`) and
returns `Ok(())` unconditionally, so the call's outcome is recorded but never
propagated. -/
def close_temporary_ft (env : TokenOp → Bool)
    (highest_bidder_ft_temp_account : Pubkey) (highest_bidder_account : Pubkey)
    (pda : Pubkey) : List (TokenOp × Bool) :=
  let close_highest_bidder_ft_temp_acc_ix :=
    TokenOp.closeAccount highest_bidder_ft_temp_account highest_bidder_account pda
  [(close_highest_bidder_ft_temp_acc_ix, env close_highest_bidder_ft_temp_acc_ix)]

/-- `Processor::escrow_is_closing`: issues a `close_account` of the
exhibitor's temporary NFT account (the `invoke_signed` result is dropped in
the source, no `?`), then moves the escrow record account's whole balance to
the exhibitor with `checked_add` (failing with `AmountOverflow`), zeroes the
escrow balance and clears its data. -/
def escrow_is_closing (env : TokenOp → Bool)
    (exhibiting_nft_temp_account : Pubkey) (accouint_of_exhibitor : Pubkey)
    (pda : Pubkey) (exhibitor_lamports escrow_lamports : Nat) :
    Except ProgramError SettleResult :=
  let close_pdas_temp_acc_ix :=
    TokenOp.closeAccount exhibiting_nft_temp_account accouint_of_exhibitor pda
  match checked_add_u64 exhibitor_lamports escrow_lamports with
  | none => Except.error (ProgramError.AuctionErr AuctionError.AmountOverflow)
  | some s =>
      Except.ok { ops := [(close_pdas_temp_acc_ix, env close_pdas_temp_acc_ix)],
                  exhibitor_lamports := s,
                  escrow_lamports := 0,
                  escrow_data := none }

/-- The accounts `process_exhibit` receives, with the environment data read
from them: the escrow account's current (unchecked-unpacked) data, the
rent-exemption verdict of the rent sysvar for the escrow account, and the
clock sysvar's timestamp. -/
structure ExhibitAccounts where
  accouint_of_exhibitor : AccountInfo
  exhibitor_nft_account : Pubkey
  exhibitor_nft_temp_account : Pubkey
  exhibitor_ft_receiving_account : Pubkey
  escrow_rent_exempt : Bool
  escrow_data : Auction
  now : Int

/-- `Processor::process_exhibit` (the Create transition). -/
def process_exhibit (env : TokenOp → Bool) (accs : ExhibitAccounts)
    (initial_price auction_duration_sec : Nat) (program_id : Pubkey) :
    Except ProgramError (Auction × List (TokenOp × Bool)) :=
  if accs.accouint_of_exhibitor.is_signer = false then
    Except.error ProgramError.MissingRequiredSignature
  else if accs.escrow_rent_exempt = false then
    Except.error (ProgramError.AuctionErr AuctionError.NotRentExempt)
  else if accs.escrow_data.is_initialized then
    Except.error ProgramError.AccountAlreadyInitialized
  else
    let auction_info : Auction :=
      { accs.escrow_data with
        is_initialized := true,
        exhibitor_pubkey := accs.accouint_of_exhibitor.key,
        exhibiting_nft_temp_pubkey := accs.exhibitor_nft_temp_account,
        exhibitor_ft_receiving_pubkey := accs.exhibitor_ft_receiving_account,
        price := initial_price,
        end_at := i64_add accs.now (u64_as_i64 auction_duration_sec) }
    let pda := find_program_address program_id
    let exhibit_ix := TokenOp.transfer accs.exhibitor_nft_account
      accs.exhibitor_nft_temp_account accs.accouint_of_exhibitor.key 1
    if env exhibit_ix = false then Except.error (ProgramError.CustodyFailure exhibit_ix)
    else
      let owner_change_ix := TokenOp.setAuthority accs.exhibitor_nft_temp_account
        pda accs.accouint_of_exhibitor.key
      if env owner_change_ix = false then
        Except.error (ProgramError.CustodyFailure owner_change_ix)
      else
        Except.ok (auction_info, [(exhibit_ix, true), (owner_change_ix, true)])

/-- The accounts `process_bid` receives, with the escrow account's data and
the clock sysvar's timestamp. -/
structure BidAccounts where
  bidder_account : AccountInfo
  highest_bidder_account : Pubkey
  highest_bidder_ft_temp_account : Pubkey
  highest_bidder_ft_returning_account : Pubkey
  bidder_ft_temp_account : Pubkey
  bidder_ft_account : Pubkey
  escrow_data : Auction
  now : Int

/-- `Processor::process_bid` (the Bid transition).  The two custody calls
putting the new bid under escrow are checked with `?`; the refund transfer to
the previous highest bidder and the `close_temporary_ft` call have their
outcomes dropped in the source (`invoke_signed` without `?`, and
`close_temporary_ft` returns `Ok` unconditionally). -/
def process_bid (env : TokenOp → Bool) (accs : BidAccounts) (price : Nat)
    (program_id : Pubkey) :
    Except ProgramError (Auction × List (TokenOp × Bool)) :=
  if accs.bidder_account.is_signer = false then
    Except.error ProgramError.MissingRequiredSignature
  else
    match Auction.unpack accs.escrow_data with
    | Except.error e => Except.error e
    | Except.ok auction_info =>
      if auction_info.end_at ≤ accs.now then
        Except.error (ProgramError.AuctionErr AuctionError.InactiveAuction)
      else if price ≤ auction_info.price then
        Except.error (ProgramError.AuctionErr AuctionError.InsufficientBidPrice)
      else if auction_info.highest_bidder_ft_temp_pubkey ≠ accs.highest_bidder_ft_temp_account then
        Except.error (ProgramError.AuctionErr AuctionError.InvalidInstruction)
      else if auction_info.highest_bidder_ft_returning_pubkey ≠ accs.highest_bidder_ft_returning_account then
        Except.error (ProgramError.AuctionErr AuctionError.InvalidInstruction)
      else if auction_info.highest_bidder_pubkey ≠ accs.highest_bidder_account then
        Except.error (ProgramError.AuctionErr AuctionError.InvalidInstruction)
      else if auction_info.highest_bidder_pubkey = accs.bidder_account.key then
        Except.error (ProgramError.AuctionErr AuctionError.AlreadyBid)
      else
        let pda := find_program_address program_id
        let transfer_to_escrow_ix := TokenOp.transfer accs.bidder_ft_account
          accs.bidder_ft_temp_account accs.bidder_account.key price
        if env transfer_to_escrow_ix = false then
          Except.error (ProgramError.CustodyFailure transfer_to_escrow_ix)
        else
          let owner_change_ix := TokenOp.setAuthority accs.bidder_ft_temp_account
            pda accs.bidder_account.key
          if env owner_change_ix = false then
            Except.error (ProgramError.CustodyFailure owner_change_ix)
          else
            let refund_ops : List (TokenOp × Bool) :=
              if auction_info.highest_bidder_pubkey ≠ Pubkey.default then
                let transfer_to_previous_bidder_ix := TokenOp.transfer
                  accs.highest_bidder_ft_temp_account
                  accs.highest_bidder_ft_returning_account pda auction_info.price
                (transfer_to_previous_bidder_ix, env transfer_to_previous_bidder_ix) ::
                  close_temporary_ft env accs.highest_bidder_ft_temp_account
                    accs.highest_bidder_account pda
              else []
            Except.ok
              ({ auction_info with
                 price := price,
                 highest_bidder_pubkey := accs.bidder_account.key,
                 highest_bidder_ft_temp_pubkey := accs.bidder_ft_temp_account,
                 highest_bidder_ft_returning_pubkey := accs.bidder_ft_account },
               (transfer_to_escrow_ix, true) :: (owner_change_ix, true) :: refund_ops)

/-- The accounts `process_cancel` receives, with the environment data read
from them: the live token balance of the exhibitor's temporary NFT account
(`TokenAccount::unpack(..).amount`) and the storage balances involved in
closing the escrow. -/
structure CancelAccounts where
  accouint_of_exhibitor : AccountInfo
  exhibiting_nft_temp_account : Pubkey
  exhibiting_nft_returning_account : Pubkey
  escrow_data : Auction
  exhibiting_nft_temp_amount : Nat
  exhibitor_lamports : Nat
  escrow_lamports : Nat

/-- `Processor::process_cancel` (the Cancel transition).  Note it reads no
clock sysvar: no temporal guard at all. -/
def process_cancel (env : TokenOp → Bool) (accs : CancelAccounts)
    (program_id : Pubkey) : Except ProgramError SettleResult :=
  if accs.accouint_of_exhibitor.is_signer = false then
    Except.error ProgramError.MissingRequiredSignature
  else
    match Auction.unpack accs.escrow_data with
    | Except.error e => Except.error e
    | Except.ok auction_info =>
      if auction_info.exhibitor_pubkey ≠ accs.accouint_of_exhibitor.key then
        Except.error ProgramError.InvalidAccountData
      else if auction_info.exhibiting_nft_temp_pubkey ≠ accs.exhibiting_nft_temp_account then
        Except.error ProgramError.InvalidAccountData
      else if auction_info.highest_bidder_pubkey ≠ Pubkey.default then
        Except.error (ProgramError.AuctionErr AuctionError.AlreadyBid)
      else
        let pda := find_program_address program_id
        let transfer_nft_to_exhibitor_ix := TokenOp.transfer
          accs.exhibiting_nft_temp_account accs.exhibiting_nft_returning_account
          pda accs.exhibiting_nft_temp_amount
        if env transfer_nft_to_exhibitor_ix = false then
          Except.error (ProgramError.CustodyFailure transfer_nft_to_exhibitor_ix)
        else
          match escrow_is_closing env accs.exhibiting_nft_temp_account
              accs.accouint_of_exhibitor.key pda accs.exhibitor_lamports
              accs.escrow_lamports with
          | Except.error e => Except.error e
          | Except.ok r =>
              Except.ok { r with ops := (transfer_nft_to_exhibitor_ix, true) :: r.ops }

/-- The accounts `closing_the_process` receives, with the environment data
read from them: the clock timestamp, the live token balances of the two
temporary custody accounts, and the storage balances involved in closing the
escrow. -/
structure CloseAccounts where
  highest_bidder_account : AccountInfo
  accouint_of_exhibitor : Pubkey
  exhibiting_nft_temp_account : Pubkey
  exhibitor_ft_receiving_account : Pubkey
  highest_bidder_ft_temp_account : Pubkey
  highest_bidder_nft_receiving_account : Pubkey
  escrow_data : Auction
  now : Int
  exhibiting_nft_temp_amount : Nat
  highest_bidder_ft_temp_amount : Nat
  exhibitor_lamports : Nat
  escrow_lamports : Nat

/-- `Processor::closing_the_process` (the Close transition).  The two
transfers (NFT to winner, FT to exhibitor) are checked with `?`; both
`close_account` calls (inside `close_temporary_ft` and `escrow_is_closing`)
have their `invoke_signed` outcomes dropped in the source. -/
def closing_the_process (env : TokenOp → Bool) (accs : CloseAccounts)
    (program_id : Pubkey) : Except ProgramError SettleResult :=
  if accs.highest_bidder_account.is_signer = false then
    Except.error ProgramError.MissingRequiredSignature
  else
    match Auction.unpack accs.escrow_data with
    | Except.error e => Except.error e
    | Except.ok auction_info =>
      if accs.now < auction_info.end_at then
        Except.error (ProgramError.AuctionErr AuctionError.ActiveAuction)
      else if auction_info.exhibitor_pubkey ≠ accs.accouint_of_exhibitor then
        Except.error ProgramError.InvalidAccountData
      else if auction_info.exhibiting_nft_temp_pubkey ≠ accs.exhibiting_nft_temp_account then
        Except.error ProgramError.InvalidAccountData
      else if auction_info.exhibitor_ft_receiving_pubkey ≠ accs.exhibitor_ft_receiving_account then
        Except.error ProgramError.InvalidAccountData
      else if auction_info.highest_bidder_ft_temp_pubkey ≠ accs.highest_bidder_ft_temp_account then
        Except.error ProgramError.InvalidAccountData
      else if auction_info.highest_bidder_pubkey ≠ accs.highest_bidder_account.key then
        Except.error ProgramError.InvalidAccountData
      else
        let pda := find_program_address program_id
        let highest_bidder_nft_transfer := TokenOp.transfer
          accs.exhibiting_nft_temp_account accs.highest_bidder_nft_receiving_account
          pda accs.exhibiting_nft_temp_amount
        if env highest_bidder_nft_transfer = false then
          Except.error (ProgramError.CustodyFailure highest_bidder_nft_transfer)
        else
          let transfer_ft_to_exhibitor_ix := TokenOp.transfer
            accs.highest_bidder_ft_temp_account accs.exhibitor_ft_receiving_account
            pda accs.highest_bidder_ft_temp_amount
          if env transfer_ft_to_exhibitor_ix = false then
            Except.error (ProgramError.CustodyFailure transfer_ft_to_exhibitor_ix)
          else
            let ft_close_ops := close_temporary_ft env
              accs.highest_bidder_ft_temp_account accs.highest_bidder_account.key pda
            match escrow_is_closing env accs.exhibiting_nft_temp_account
                accs.accouint_of_exhibitor pda accs.exhibitor_lamports
                accs.escrow_lamports with
            | Except.error e => Except.error e
            | Except.ok r =>
                Except.ok { r with ops :=
                  (highest_bidder_nft_transfer, true) ::
                    (transfer_ft_to_exhibitor_ix, true) :: (ft_close_ops ++ r.ops) }

/-! ## Helper lemmas: characterizations of each transition -/

set_option maxHeartbeats 2000000 in
/-- Inversion for a successful Bid: every guard held, both checked custody
calls succeeded, and the result is the updated record together with the exact
trace of issued custody calls. -/
lemma process_bid_ok_inv (env : TokenOp → Bool) (accs : BidAccounts) (price : Nat)
    (program_id : Pubkey) {out : Auction × List (TokenOp × Bool)}
    (h : process_bid env accs price program_id = Except.ok out) :
    accs.bidder_account.is_signer = true ∧
    accs.escrow_data.is_initialized = true ∧
    accs.now < accs.escrow_data.end_at ∧
    accs.escrow_data.price < price ∧
    accs.escrow_data.highest_bidder_ft_temp_pubkey = accs.highest_bidder_ft_temp_account ∧
    accs.escrow_data.highest_bidder_ft_returning_pubkey = accs.highest_bidder_ft_returning_account ∧
    accs.escrow_data.highest_bidder_pubkey = accs.highest_bidder_account ∧
    accs.escrow_data.highest_bidder_pubkey ≠ accs.bidder_account.key ∧
    env (TokenOp.transfer accs.bidder_ft_account accs.bidder_ft_temp_account
      accs.bidder_account.key price) = true ∧
    env (TokenOp.setAuthority accs.bidder_ft_temp_account
      (find_program_address program_id) accs.bidder_account.key) = true ∧
    out =
      ({ accs.escrow_data with
         price := price,
         highest_bidder_pubkey := accs.bidder_account.key,
         highest_bidder_ft_temp_pubkey := accs.bidder_ft_temp_account,
         highest_bidder_ft_returning_pubkey := accs.bidder_ft_account },
       (TokenOp.transfer accs.bidder_ft_account accs.bidder_ft_temp_account
          accs.bidder_account.key price, true) ::
       (TokenOp.setAuthority accs.bidder_ft_temp_account
          (find_program_address program_id) accs.bidder_account.key, true) ::
       (if accs.escrow_data.highest_bidder_pubkey ≠ Pubkey.default then
          (TokenOp.transfer accs.highest_bidder_ft_temp_account
             accs.highest_bidder_ft_returning_account
             (find_program_address program_id) accs.escrow_data.price,
           env (TokenOp.transfer accs.highest_bidder_ft_temp_account
             accs.highest_bidder_ft_returning_account
             (find_program_address program_id) accs.escrow_data.price)) ::
          close_temporary_ft env accs.highest_bidder_ft_temp_account
            accs.highest_bidder_account (find_program_address program_id)
        else [])) := by
  simp only [process_bid] at h
  split at h
  · cases h
  rename_i hs
  split at h
  · cases h
  rename_i auction_info heq
  have hinit : accs.escrow_data.is_initialized = true ∧ auction_info = accs.escrow_data := by
    unfold Auction.unpack at heq
    split at heq
    · rename_i hinit0
      injection heq with heq2
      exact ⟨by simpa using hinit0, heq2.symm⟩
    · cases heq
  obtain ⟨hinit1, rfl⟩ := hinit
  split at h
  · cases h
  rename_i ht
  split at h
  · cases h
  rename_i hp
  split at h
  · cases h
  rename_i m1
  split at h
  · cases h
  rename_i m2
  split at h
  · cases h
  rename_i m3
  split at h
  · cases h
  rename_i m4
  split at h
  · cases h
  rename_i e1
  split at h
  · cases h
  rename_i e2
  injection h with h
  refine ⟨by simpa using hs, hinit1, by omega, by omega, by simpa using m1, by simpa using m2,
    by simpa using m3, m4, by simpa using e1, by simpa using e2, ?_⟩
  subst h
  rfl

set_option maxHeartbeats 2000000 in
/-- A Bid whose guards all hold and whose two result-checked custody calls
succeed returns success, with no condition at all on the outcome of the
previous-leader refund transfer or of the temporary-account close. -/
lemma process_bid_success (env : TokenOp → Bool) (accs : BidAccounts) (price : Nat)
    (program_id : Pubkey)
    (hs : accs.bidder_account.is_signer = true)
    (hi : accs.escrow_data.is_initialized = true)
    (ht : accs.now < accs.escrow_data.end_at)
    (hp : accs.escrow_data.price < price)
    (m1 : accs.escrow_data.highest_bidder_ft_temp_pubkey = accs.highest_bidder_ft_temp_account)
    (m2 : accs.escrow_data.highest_bidder_ft_returning_pubkey = accs.highest_bidder_ft_returning_account)
    (m3 : accs.escrow_data.highest_bidder_pubkey = accs.highest_bidder_account)
    (m4 : accs.escrow_data.highest_bidder_pubkey ≠ accs.bidder_account.key)
    (e1 : env (TokenOp.transfer accs.bidder_ft_account accs.bidder_ft_temp_account
      accs.bidder_account.key price) = true)
    (e2 : env (TokenOp.setAuthority accs.bidder_ft_temp_account
      (find_program_address program_id) accs.bidder_account.key) = true) :
    (process_bid env accs price program_id).isOk = true := by
  have ht' : ¬ (accs.escrow_data.end_at ≤ accs.now) := not_le.mpr ht
  have hp' : ¬ (price ≤ accs.escrow_data.price) := not_le.mpr hp
  have m4' : accs.highest_bidder_account ≠ accs.bidder_account.key := m3 ▸ m4
  simp [process_bid, Auction.unpack, hs, hi, ht', hp', m1, m2, m3, m4', e1, e2, Except.isOk,
    Except.toBool]

set_option maxHeartbeats 2000000 in
/-- Inversion for a successful Close: every guard held, the lamport
reclamation did not overflow, and the result is exactly the four custody
calls in order followed by the destroyed record. -/
lemma closing_ok_inv (env : TokenOp → Bool) (accs : CloseAccounts) (program_id : Pubkey)
    {r : SettleResult} (h : closing_the_process env accs program_id = Except.ok r) :
    accs.highest_bidder_account.is_signer = true ∧
    accs.escrow_data.is_initialized = true ∧
    accs.escrow_data.end_at ≤ accs.now ∧
    accs.escrow_data.exhibitor_pubkey = accs.accouint_of_exhibitor ∧
    accs.escrow_data.exhibiting_nft_temp_pubkey = accs.exhibiting_nft_temp_account ∧
    accs.escrow_data.exhibitor_ft_receiving_pubkey = accs.exhibitor_ft_receiving_account ∧
    accs.escrow_data.highest_bidder_ft_temp_pubkey = accs.highest_bidder_ft_temp_account ∧
    accs.escrow_data.highest_bidder_pubkey = accs.highest_bidder_account.key ∧
    env (TokenOp.transfer accs.exhibiting_nft_temp_account
      accs.highest_bidder_nft_receiving_account (find_program_address program_id)
      accs.exhibiting_nft_temp_amount) = true ∧
    env (TokenOp.transfer accs.highest_bidder_ft_temp_account
      accs.exhibitor_ft_receiving_account (find_program_address program_id)
      accs.highest_bidder_ft_temp_amount) = true ∧
    accs.exhibitor_lamports + accs.escrow_lamports < 2 ^ 64 ∧
    r = { ops := [(TokenOp.transfer accs.exhibiting_nft_temp_account
                     accs.highest_bidder_nft_receiving_account
                     (find_program_address program_id) accs.exhibiting_nft_temp_amount, true),
                  (TokenOp.transfer accs.highest_bidder_ft_temp_account
                     accs.exhibitor_ft_receiving_account
                     (find_program_address program_id) accs.highest_bidder_ft_temp_amount, true),
                  (TokenOp.closeAccount accs.highest_bidder_ft_temp_account
                     accs.highest_bidder_account.key (find_program_address program_id),
                   env (TokenOp.closeAccount accs.highest_bidder_ft_temp_account
                     accs.highest_bidder_account.key (find_program_address program_id))),
                  (TokenOp.closeAccount accs.exhibiting_nft_temp_account
                     accs.accouint_of_exhibitor (find_program_address program_id),
                   env (TokenOp.closeAccount accs.exhibiting_nft_temp_account
                     accs.accouint_of_exhibitor (find_program_address program_id)))],
          exhibitor_lamports := accs.exhibitor_lamports + accs.escrow_lamports,
          escrow_lamports := 0,
          escrow_data := none } := by
  simp only [closing_the_process] at h
  split at h
  · cases h
  rename_i hs
  split at h
  · cases h
  rename_i auction_info heq
  have hinit : accs.escrow_data.is_initialized = true ∧ auction_info = accs.escrow_data := by
    unfold Auction.unpack at heq
    split at heq
    · rename_i hinit0
      injection heq with heq2
      exact ⟨by simpa using hinit0, heq2.symm⟩
    · cases heq
  obtain ⟨hinit1, rfl⟩ := hinit
  split at h
  · cases h
  rename_i ht
  split at h
  · cases h
  rename_i m1
  split at h
  · cases h
  rename_i m2
  split at h
  · cases h
  rename_i m3
  split at h
  · cases h
  rename_i m4
  split at h
  · cases h
  rename_i m5
  split at h
  · cases h
  rename_i e1
  split at h
  · cases h
  rename_i e2
  split at h
  · cases h
  rename_i heq2
  unfold escrow_is_closing at heq2
  split at heq2
  · cases heq2
  rename_i s hsum
  cases heq2
  have hlt : accs.exhibitor_lamports + accs.escrow_lamports < 2 ^ 64 ∧
      s = accs.exhibitor_lamports + accs.escrow_lamports := by
    unfold checked_add_u64 at hsum
    split at hsum
    · rename_i hl0
      injection hsum with h4
      exact ⟨hl0, h4.symm⟩
    · cases hsum
  obtain ⟨hlt1, rfl⟩ := hlt
  injection h with h3
  refine ⟨by simpa using hs, hinit1, by omega, by simpa using m1, by simpa using m2,
    by simpa using m3, by simpa using m4, by simpa using m5, by simpa using e1,
    by simpa using e2, hlt1, ?_⟩
  rw [← h3]
  simp [close_temporary_ft]

set_option maxHeartbeats 1000000 in
/-- A Close whose guards all hold, whose two result-checked transfers
succeed, and whose lamport reclamation fits in u64, returns success — with no
condition at all on the outcomes of the two `close_account` calls. -/
lemma closing_success (env : TokenOp → Bool) (accs : CloseAccounts) (program_id : Pubkey)
    (hs : accs.highest_bidder_account.is_signer = true)
    (hi : accs.escrow_data.is_initialized = true)
    (ht : accs.escrow_data.end_at ≤ accs.now)
    (m1 : accs.escrow_data.exhibitor_pubkey = accs.accouint_of_exhibitor)
    (m2 : accs.escrow_data.exhibiting_nft_temp_pubkey = accs.exhibiting_nft_temp_account)
    (m3 : accs.escrow_data.exhibitor_ft_receiving_pubkey = accs.exhibitor_ft_receiving_account)
    (m4 : accs.escrow_data.highest_bidder_ft_temp_pubkey = accs.highest_bidder_ft_temp_account)
    (m5 : accs.escrow_data.highest_bidder_pubkey = accs.highest_bidder_account.key)
    (e1 : env (TokenOp.transfer accs.exhibiting_nft_temp_account
      accs.highest_bidder_nft_receiving_account (find_program_address program_id)
      accs.exhibiting_nft_temp_amount) = true)
    (e2 : env (TokenOp.transfer accs.highest_bidder_ft_temp_account
      accs.exhibitor_ft_receiving_account (find_program_address program_id)
      accs.highest_bidder_ft_temp_amount) = true)
    (hl : accs.exhibitor_lamports + accs.escrow_lamports < 2 ^ 64) :
    (closing_the_process env accs program_id).isOk = true := by
  have ht' : ¬ (accs.now < accs.escrow_data.end_at) := not_lt.mpr ht
  have hl2 : accs.exhibitor_lamports + accs.escrow_lamports < 18446744073709551616 := hl
  simp [closing_the_process, Auction.unpack, escrow_is_closing, checked_add_u64,
    hs, hi, ht', m1, m2, m3, m4, m5, e1, e2, hl2, Except.isOk, Except.toBool]

set_option maxHeartbeats 1000000 in
/-- A Close attempted while the auction is still running fails with
`ActiveAuction`, before any account-identity guard is consulted. -/
lemma closing_active (env : TokenOp → Bool) (accs : CloseAccounts) (program_id : Pubkey)
    (hs : accs.highest_bidder_account.is_signer = true)
    (hi : accs.escrow_data.is_initialized = true)
    (ht : accs.now < accs.escrow_data.end_at) :
    closing_the_process env accs program_id =
      Except.error (ProgramError.AuctionErr AuctionError.ActiveAuction) := by
  simp [closing_the_process, Auction.unpack, hs, hi, ht]

set_option maxHeartbeats 1000000 in
/-- A Cancel whose guards all hold, whose checked NFT-return transfer
succeeds, and whose lamport reclamation fits in u64, succeeds and destroys
the record. -/
lemma process_cancel_success (env : TokenOp → Bool) (accs : CancelAccounts)
    (program_id : Pubkey)
    (hs : accs.accouint_of_exhibitor.is_signer = true)
    (hi : accs.escrow_data.is_initialized = true)
    (m1 : accs.escrow_data.exhibitor_pubkey = accs.accouint_of_exhibitor.key)
    (m2 : accs.escrow_data.exhibiting_nft_temp_pubkey = accs.exhibiting_nft_temp_account)
    (hb : accs.escrow_data.highest_bidder_pubkey = Pubkey.default)
    (e1 : env (TokenOp.transfer accs.exhibiting_nft_temp_account
      accs.exhibiting_nft_returning_account (find_program_address program_id)
      accs.exhibiting_nft_temp_amount) = true)
    (hl : accs.exhibitor_lamports + accs.escrow_lamports < 2 ^ 64) :
    process_cancel env accs program_id =
      Except.ok
        { ops := [(TokenOp.transfer accs.exhibiting_nft_temp_account
                     accs.exhibiting_nft_returning_account (find_program_address program_id)
                     accs.exhibiting_nft_temp_amount, true),
                  (TokenOp.closeAccount accs.exhibiting_nft_temp_account
                     accs.accouint_of_exhibitor.key (find_program_address program_id),
                   env (TokenOp.closeAccount accs.exhibiting_nft_temp_account
                     accs.accouint_of_exhibitor.key (find_program_address program_id)))],
          exhibitor_lamports := accs.exhibitor_lamports + accs.escrow_lamports,
          escrow_lamports := 0,
          escrow_data := none } := by
  have hl2 : accs.exhibitor_lamports + accs.escrow_lamports < 18446744073709551616 := hl
  simp [process_cancel, Auction.unpack, escrow_is_closing, checked_add_u64,
    hs, hi, m1, m2, hb, e1, hl2]

set_option maxHeartbeats 1000000 in
/-- A Cancel by the signing exhibitor with matching custody reference on a
record that has a highest bidder fails with `AlreadyBid`. -/
lemma process_cancel_already_bid (env : TokenOp → Bool) (accs : CancelAccounts)
    (program_id : Pubkey)
    (hs : accs.accouint_of_exhibitor.is_signer = true)
    (hi : accs.escrow_data.is_initialized = true)
    (m1 : accs.escrow_data.exhibitor_pubkey = accs.accouint_of_exhibitor.key)
    (m2 : accs.escrow_data.exhibiting_nft_temp_pubkey = accs.exhibiting_nft_temp_account)
    (hb : accs.escrow_data.highest_bidder_pubkey ≠ Pubkey.default) :
    process_cancel env accs program_id =
      Except.error (ProgramError.AuctionErr AuctionError.AlreadyBid) := by
  simp [process_cancel, Auction.unpack, hs, hi, m1, m2, hb]

set_option maxHeartbeats 2000000 in
/-- Inversion for a successful Cancel: the caller signed and matched the
exhibitor, the custody reference matched, and no bidder was recorded. -/
lemma process_cancel_ok_inv (env : TokenOp → Bool) (accs : CancelAccounts)
    (program_id : Pubkey) {r : SettleResult}
    (h : process_cancel env accs program_id = Except.ok r) :
    accs.accouint_of_exhibitor.is_signer = true ∧
    accs.escrow_data.is_initialized = true ∧
    accs.escrow_data.exhibitor_pubkey = accs.accouint_of_exhibitor.key ∧
    accs.escrow_data.exhibiting_nft_temp_pubkey = accs.exhibiting_nft_temp_account ∧
    accs.escrow_data.highest_bidder_pubkey = Pubkey.default ∧
    env (TokenOp.transfer accs.exhibiting_nft_temp_account
      accs.exhibiting_nft_returning_account (find_program_address program_id)
      accs.exhibiting_nft_temp_amount) = true := by
  simp only [process_cancel] at h
  split at h
  · cases h
  rename_i hs
  split at h
  · cases h
  rename_i auction_info heq
  have hinit : accs.escrow_data.is_initialized = true ∧ auction_info = accs.escrow_data := by
    unfold Auction.unpack at heq
    split at heq
    · rename_i hinit0
      injection heq with heq2
      exact ⟨by simpa using hinit0, heq2.symm⟩
    · cases heq
  obtain ⟨hinit1, rfl⟩ := hinit
  split at h
  · cases h
  rename_i m1
  split at h
  · cases h
  rename_i m2
  split at h
  · cases h
  rename_i hb
  split at h
  · cases h
  rename_i e1
  exact ⟨by simpa using hs, hinit1, by simpa using m1, by simpa using m2, by simpa using hb,
    by simpa using e1⟩

/-- When the duration fits in `i64` and the sum does not overflow, the
source's `clock.unix_timestamp.add(auction_duration_sec as i64)` is plain
integer addition. -/
lemma i64_add_cast (now : Int) (d : Nat) (hd : d < 2 ^ 63)
    (h1 : -(2 ^ 63) ≤ now + (d : Int)) (h2 : now + (d : Int) < 2 ^ 63) :
    i64_add now (u64_as_i64 d) = now + (d : Int) := by
  unfold i64_add i64_wrap u64_as_i64
  rw [if_pos hd]
  omega

set_option maxHeartbeats 1000000 in
/-- Inversion for a successful Create: every guard held and both checked
custody calls succeeded. -/
lemma process_exhibit_ok_inv (env : TokenOp → Bool) (accs : ExhibitAccounts)
    (initial_price auction_duration_sec : Nat) (program_id : Pubkey)
    {out : Auction × List (TokenOp × Bool)}
    (h : process_exhibit env accs initial_price auction_duration_sec program_id =
      Except.ok out) :
    accs.accouint_of_exhibitor.is_signer = true ∧
    accs.escrow_rent_exempt = true ∧
    accs.escrow_data.is_initialized = false ∧
    env (TokenOp.transfer accs.exhibitor_nft_account accs.exhibitor_nft_temp_account
      accs.accouint_of_exhibitor.key 1) = true ∧
    env (TokenOp.setAuthority accs.exhibitor_nft_temp_account
      (find_program_address program_id) accs.accouint_of_exhibitor.key) = true := by
  simp only [process_exhibit] at h
  split at h
  · cases h
  rename_i hs
  split at h
  · cases h
  rename_i hr
  split at h
  · cases h
  rename_i hi
  split at h
  · cases h
  rename_i e1
  split at h
  · cases h
  rename_i e2
  exact ⟨by simpa using hs, by simpa using hr, by simpa using hi, by simpa using e1,
    by simpa using e2⟩

/-! ## Bid sequences -/

/-- One attempted Bid on a running auction: the accounts the bidder supplies,
the clock reading, the offered price and the custody-service behaviour. -/
structure BidAttempt where
  env : TokenOp → Bool
  bidder_account : AccountInfo
  highest_bidder_account : Pubkey
  highest_bidder_ft_temp_account : Pubkey
  highest_bidder_ft_returning_account : Pubkey
  bidder_ft_temp_account : Pubkey
  bidder_ft_account : Pubkey
  now : Int
  price : Nat
  program_id : Pubkey

/-- The `BidAccounts` a `BidAttempt` presents against a given record. -/
def BidAttempt.accounts (b : BidAttempt) (r : Auction) : BidAccounts :=
  { bidder_account := b.bidder_account,
    highest_bidder_account := b.highest_bidder_account,
    highest_bidder_ft_temp_account := b.highest_bidder_ft_temp_account,
    highest_bidder_ft_returning_account := b.highest_bidder_ft_returning_account,
    bidder_ft_temp_account := b.bidder_ft_temp_account,
    bidder_ft_account := b.bidder_ft_account,
    escrow_data := r,
    now := b.now }

/-- The record after one attempted Bid: the updated record if the Bid
succeeded, the unchanged record if it aborted (host rollback). -/
def bid_step (r : Auction) (b : BidAttempt) : Auction :=
  match process_bid b.env (b.accounts r) b.price b.program_id with
  | Except.ok out => out.1
  | Except.error _ => r

lemma bid_step_price_le (r : Auction) (b : BidAttempt) :
    r.price ≤ (bid_step r b).price := by
  unfold bid_step
  cases hres : process_bid b.env (b.accounts r) b.price b.program_id with
  | ok out =>
      obtain ⟨-, -, -, hp, -, -, -, -, -, -, hout⟩ :=
        process_bid_ok_inv b.env (b.accounts r) b.price b.program_id hres
      subst hout
      simp only []
      exact le_of_lt hp
  | error e => simp

/-! ## Concrete fixtures for witnesses and counterexamples -/

/-- A custody service on which every call succeeds. -/
def all_ok_env : TokenOp → Bool := fun _ => true

/-- A custody service that fails exactly the calls drawing on account 8 (used
as the previous leader's temporary FT custody below). -/
def cex_env : TokenOp → Bool := fun op =>
  match op with
  | TokenOp.transfer 8 _ _ _ => false
  | _ => true

/-- A custody service that fails every `close_account` call. -/
def close_fail_env : TokenOp → Bool := fun op =>
  match op with
  | TokenOp.closeAccount _ _ _ => false
  | _ => true

/-- A custody service that fails exactly the transfers drawing on account 12
(used as the new bidder's FT source below). -/
def escrow_fail_env : TokenOp → Bool := fun op =>
  match op with
  | TokenOp.transfer 12 _ _ _ => false
  | _ => true

/-- A custody service that fails exactly the transfers drawing on account 4
(used as the exhibitor's NFT source below). -/
def nft_fail_env : TokenOp → Bool := fun op =>
  match op with
  | TokenOp.transfer 4 _ _ _ => false
  | _ => true

/-- A custody service that fails every `set_authority` call. -/
def auth_fail_env : TokenOp → Bool := fun op =>
  match op with
  | TokenOp.setAuthority _ _ _ => false
  | _ => true

/-- A custody service that fails exactly the transfers drawing on account 2
(used as the item custody account below). -/
def item_fail_env : TokenOp → Bool := fun op =>
  match op with
  | TokenOp.transfer 2 _ _ _ => false
  | _ => true

/-- A live record with no bidder yet: exhibitor 1, NFT custody 2, proceeds
account 3, asking price 100, expiry 1000. -/
def sampleOpen : Auction := ⟨true, 1, 2, 3, 100, 1000, 0, 0, 0⟩

/-- A live record whose leader is bidder 7 at price 150, with temporary FT
custody 8 and refund account 9. -/
def sampleLed : Auction := ⟨true, 1, 2, 3, 150, 1000, 7, 8, 9⟩

/-- An uninitialized record slot. -/
def blankAuction : Auction := ⟨false, 0, 0, 0, 0, 0, 0, 0, 0⟩

/-- Bidder 10 bidding against `sampleOpen` (no previous leader), funding from
account 12 into temporary custody 11, at time 0. -/
def bidOpenAccs : BidAccounts := ⟨⟨10, true⟩, 0, 0, 0, 11, 12, sampleOpen, 0⟩

/-- Bidder 10 bidding against `sampleLed` (previous leader 7), supplying the
leader's stored accounts, at time 0. -/
def bidLedAccs : BidAccounts := ⟨⟨10, true⟩, 7, 8, 9, 11, 12, sampleLed, 0⟩

/-- The result of a successful bid of 200 placed through `bidOpenAccs`. -/
def bidOpenResult : Auction × List (TokenOp × Bool) :=
  (⟨true, 1, 2, 3, 200, 1000, 10, 11, 12⟩,
   [(TokenOp.transfer 12 11 10 200, true), (TokenOp.setAuthority 11 1 10, true)])

/-- The winner 7 settling `sampleLed` after expiry (time 2000), with live
custody balances 1 NFT and 150 FT and storage balances 10 and 5. -/
def closeOkAccs : CloseAccounts := ⟨⟨7, true⟩, 1, 2, 3, 8, 20, sampleLed, 2000, 1, 150, 10, 5⟩

/-- The result of settling through `closeOkAccs` with every call succeeding. -/
def closeOkResult : SettleResult :=
  ⟨[(TokenOp.transfer 2 20 1 1, true), (TokenOp.transfer 8 3 1 150, true),
    (TokenOp.closeAccount 8 7 1, true), (TokenOp.closeAccount 2 1 1, true)], 15, 0, none⟩

/-- The winner 7 attempting to settle `sampleLed` before expiry (time 0). -/
def closeEarlyAccs : CloseAccounts := ⟨⟨7, true⟩, 1, 2, 3, 8, 20, sampleLed, 0, 1, 150, 10, 5⟩

/-- A signing stranger 5 attempting to settle `sampleLed` after expiry with
every stored account supplied correctly. -/
def closeWrongCallerAccs : CloseAccounts :=
  ⟨⟨5, true⟩, 1, 2, 3, 8, 20, sampleLed, 2000, 1, 150, 10, 5⟩

/-- A signing caller 5 attempting to settle `sampleOpen`, on which no bid was
ever placed, after expiry. -/
def closeNoBidAccs : CloseAccounts := ⟨⟨5, true⟩, 1, 2, 3, 0, 20, sampleOpen, 2000, 1, 0, 10, 5⟩

/-- The exhibitor 1 cancelling `sampleOpen`, returning the item to account 6. -/
def cancelOpenAccs : CancelAccounts := ⟨⟨1, true⟩, 2, 6, sampleOpen, 1, 10, 5⟩

/-- The exhibitor 1 attempting to cancel `sampleLed`, which has a leader. -/
def cancelLedAccs : CancelAccounts := ⟨⟨1, true⟩, 2, 6, sampleLed, 1, 10, 5⟩

/-- Exhibitor 1 creating an auction: item source 4, item custody 2, proceeds
account 3, a rent-exempt blank escrow slot, at time 0. -/
def exhibitAccs : ExhibitAccounts := ⟨⟨1, true⟩, 4, 2, 3, true, blankAuction, 0⟩

/-- As `exhibitAccs` but the exhibitor did not sign. -/
def exhibitNoSigAccs : ExhibitAccounts := ⟨⟨1, false⟩, 4, 2, 3, true, blankAuction, 0⟩

/-- As `exhibitAccs` but the escrow slot is not rent-exempt. -/
def exhibitNoRentAccs : ExhibitAccounts := ⟨⟨1, true⟩, 4, 2, 3, false, blankAuction, 0⟩

/-- As `exhibitAccs` but the escrow slot already holds a live record. -/
def exhibitInitAccs : ExhibitAccounts := ⟨⟨1, true⟩, 4, 2, 3, true, sampleOpen, 0⟩

/-- Bidder 10 bidding 200 with every custody call succeeding, as a
`BidAttempt` against whatever record is current. -/
def sampleAttempt : BidAttempt := ⟨all_ok_env, ⟨10, true⟩, 0, 0, 0, 11, 12, 0, 200, 0⟩

/-! ## Claims -/

/-- C1, counterexample: a Bid in which the previous-leader refund transfer
fails is not aborted — `process_bid` still returns success, records the
failed refund call in its trace, and installs the new leader.  The claim that
the refund transfer inside Bid is fatal on failure is therefore false. -/
theorem bid_refund_failure_not_fatal_cex :
    cex_env (TokenOp.transfer 8 9 1 150) = false ∧
    process_bid cex_env bidLedAccs 200 0 =
      Except.ok (⟨true, 1, 2, 3, 200, 1000, 10, 11, 12⟩,
        [(TokenOp.transfer 12 11 10 200, true),
         (TokenOp.setAuthority 11 1 10, true),
         (TokenOp.transfer 8 9 1 150, false),
         (TokenOp.closeAccount 8 7 1, true)]) :=
  ⟨rfl, rfl⟩

/-- C1, amended: exactly the custody calls whose results the source checks
are fatal on failure, and the calls whose results it drops are not.
Non-fatality: (i) a Bid whose guards hold succeeds as soon as its two checked
calls succeed, whatever becomes of the previous-leader refund transfer and
temporary-custody close; (ii) a Close whose guards hold succeeds as soon as
its two checked transfers succeed and the lamport reclamation fits, whatever
becomes of its two `close_account` calls; (iii) likewise Cancel succeeds
whatever becomes of its `close_account` call.  Fatality: a failure of
(iv) the Create item transfer, (v) the Create authority change, (vi) the Bid
escrow transfer, (vii) the Bid authority change, (viii) the Cancel
item-return transfer, (ix) the Close item transfer or (x) the Close currency
transfer always aborts its transition. -/
theorem custody_result_checking :
    (∀ (env : TokenOp → Bool) (accs : BidAccounts) (price : Nat) (program_id : Pubkey),
      accs.bidder_account.is_signer = true →
      accs.escrow_data.is_initialized = true →
      accs.now < accs.escrow_data.end_at →
      accs.escrow_data.price < price →
      accs.escrow_data.highest_bidder_ft_temp_pubkey = accs.highest_bidder_ft_temp_account →
      accs.escrow_data.highest_bidder_ft_returning_pubkey = accs.highest_bidder_ft_returning_account →
      accs.escrow_data.highest_bidder_pubkey = accs.highest_bidder_account →
      accs.escrow_data.highest_bidder_pubkey ≠ accs.bidder_account.key →
      env (TokenOp.transfer accs.bidder_ft_account accs.bidder_ft_temp_account
        accs.bidder_account.key price) = true →
      env (TokenOp.setAuthority accs.bidder_ft_temp_account
        (find_program_address program_id) accs.bidder_account.key) = true →
      (process_bid env accs price program_id).isOk = true) ∧
    (∀ (env : TokenOp → Bool) (accs : CloseAccounts) (program_id : Pubkey),
      accs.highest_bidder_account.is_signer = true →
      accs.escrow_data.is_initialized = true →
      accs.escrow_data.end_at ≤ accs.now →
      accs.escrow_data.exhibitor_pubkey = accs.accouint_of_exhibitor →
      accs.escrow_data.exhibiting_nft_temp_pubkey = accs.exhibiting_nft_temp_account →
      accs.escrow_data.exhibitor_ft_receiving_pubkey = accs.exhibitor_ft_receiving_account →
      accs.escrow_data.highest_bidder_ft_temp_pubkey = accs.highest_bidder_ft_temp_account →
      accs.escrow_data.highest_bidder_pubkey = accs.highest_bidder_account.key →
      env (TokenOp.transfer accs.exhibiting_nft_temp_account
        accs.highest_bidder_nft_receiving_account (find_program_address program_id)
        accs.exhibiting_nft_temp_amount) = true →
      env (TokenOp.transfer accs.highest_bidder_ft_temp_account
        accs.exhibitor_ft_receiving_account (find_program_address program_id)
        accs.highest_bidder_ft_temp_amount) = true →
      accs.exhibitor_lamports + accs.escrow_lamports < 2 ^ 64 →
      (closing_the_process env accs program_id).isOk = true) ∧
    (∀ (env : TokenOp → Bool) (accs : CancelAccounts) (program_id : Pubkey),
      accs.accouint_of_exhibitor.is_signer = true →
      accs.escrow_data.is_initialized = true →
      accs.escrow_data.exhibitor_pubkey = accs.accouint_of_exhibitor.key →
      accs.escrow_data.exhibiting_nft_temp_pubkey = accs.exhibiting_nft_temp_account →
      accs.escrow_data.highest_bidder_pubkey = Pubkey.default →
      env (TokenOp.transfer accs.exhibiting_nft_temp_account
        accs.exhibiting_nft_returning_account (find_program_address program_id)
        accs.exhibiting_nft_temp_amount) = true →
      accs.exhibitor_lamports + accs.escrow_lamports < 2 ^ 64 →
      (process_cancel env accs program_id).isOk = true) ∧
    (∀ (env : TokenOp → Bool) (accs : ExhibitAccounts) (initial_price duration : Nat)
      (program_id : Pubkey),
      env (TokenOp.transfer accs.exhibitor_nft_account accs.exhibitor_nft_temp_account
        accs.accouint_of_exhibitor.key 1) = false →
      (process_exhibit env accs initial_price duration program_id).isOk = false) ∧
    (∀ (env : TokenOp → Bool) (accs : ExhibitAccounts) (initial_price duration : Nat)
      (program_id : Pubkey),
      env (TokenOp.setAuthority accs.exhibitor_nft_temp_account
        (find_program_address program_id) accs.accouint_of_exhibitor.key) = false →
      (process_exhibit env accs initial_price duration program_id).isOk = false) ∧
    (∀ (env : TokenOp → Bool) (accs : BidAccounts) (price : Nat) (program_id : Pubkey),
      env (TokenOp.transfer accs.bidder_ft_account accs.bidder_ft_temp_account
        accs.bidder_account.key price) = false →
      (process_bid env accs price program_id).isOk = false) ∧
    (∀ (env : TokenOp → Bool) (accs : BidAccounts) (price : Nat) (program_id : Pubkey),
      env (TokenOp.setAuthority accs.bidder_ft_temp_account
        (find_program_address program_id) accs.bidder_account.key) = false →
      (process_bid env accs price program_id).isOk = false) ∧
    (∀ (env : TokenOp → Bool) (accs : CancelAccounts) (program_id : Pubkey),
      env (TokenOp.transfer accs.exhibiting_nft_temp_account
        accs.exhibiting_nft_returning_account (find_program_address program_id)
        accs.exhibiting_nft_temp_amount) = false →
      (process_cancel env accs program_id).isOk = false) ∧
    (∀ (env : TokenOp → Bool) (accs : CloseAccounts) (program_id : Pubkey),
      env (TokenOp.transfer accs.exhibiting_nft_temp_account
        accs.highest_bidder_nft_receiving_account (find_program_address program_id)
        accs.exhibiting_nft_temp_amount) = false →
      (closing_the_process env accs program_id).isOk = false) ∧
    (∀ (env : TokenOp → Bool) (accs : CloseAccounts) (program_id : Pubkey),
      env (TokenOp.transfer accs.highest_bidder_ft_temp_account
        accs.exhibitor_ft_receiving_account (find_program_address program_id)
        accs.highest_bidder_ft_temp_amount) = false →
      (closing_the_process env accs program_id).isOk = false) := by
  refine ⟨?_, ?_, ?_, ?_, ?_, ?_, ?_, ?_, ?_, ?_⟩
  · intro env accs price program_id hs hi ht hp m1 m2 m3 m4 e1 e2
    exact process_bid_success env accs price program_id hs hi ht hp m1 m2 m3 m4 e1 e2
  · intro env accs program_id hs hi ht m1 m2 m3 m4 m5 e1 e2 hl
    exact closing_success env accs program_id hs hi ht m1 m2 m3 m4 m5 e1 e2 hl
  · intro env accs program_id hs hi m1 m2 hb e1 hl
    rw [process_cancel_success env accs program_id hs hi m1 m2 hb e1 hl]
    rfl
  · intro env accs initial_price duration program_id he
    cases hres : process_exhibit env accs initial_price duration program_id with
    | ok out =>
        obtain ⟨-, -, -, e1, -⟩ :=
          process_exhibit_ok_inv env accs initial_price duration program_id hres
        rw [he] at e1
        cases e1
    | error e => simp [Except.isOk, Except.toBool]
  · intro env accs initial_price duration program_id he
    cases hres : process_exhibit env accs initial_price duration program_id with
    | ok out =>
        obtain ⟨-, -, -, -, e2⟩ :=
          process_exhibit_ok_inv env accs initial_price duration program_id hres
        rw [he] at e2
        cases e2
    | error e => simp [Except.isOk, Except.toBool]
  · intro env accs price program_id he
    cases hres : process_bid env accs price program_id with
    | ok out =>
        obtain ⟨-, -, -, -, -, -, -, -, e1, -, -⟩ :=
          process_bid_ok_inv env accs price program_id hres
        rw [he] at e1
        cases e1
    | error e => simp [Except.isOk, Except.toBool]
  · intro env accs price program_id he
    cases hres : process_bid env accs price program_id with
    | ok out =>
        obtain ⟨-, -, -, -, -, -, -, -, -, e2, -⟩ :=
          process_bid_ok_inv env accs price program_id hres
        rw [he] at e2
        cases e2
    | error e => simp [Except.isOk, Except.toBool]
  · intro env accs program_id he
    cases hres : process_cancel env accs program_id with
    | ok r =>
        obtain ⟨-, -, -, -, -, e1⟩ := process_cancel_ok_inv env accs program_id hres
        rw [he] at e1
        cases e1
    | error e => simp [Except.isOk, Except.toBool]
  · intro env accs program_id he
    cases hres : closing_the_process env accs program_id with
    | ok r =>
        obtain ⟨-, -, -, -, -, -, -, -, e1, -, -, -⟩ :=
          closing_ok_inv env accs program_id hres
        rw [he] at e1
        cases e1
    | error e => simp [Except.isOk, Except.toBool]
  · intro env accs program_id he
    cases hres : closing_the_process env accs program_id with
    | ok r =>
        obtain ⟨-, -, -, -, -, -, -, -, -, e2, -, -⟩ :=
          closing_ok_inv env accs program_id hres
        rw [he] at e2
        cases e2
    | error e => simp [Except.isOk, Except.toBool]

/-- Witness for the C1 amended theorem: a Bid that succeeds although the
refund transfer fails, a Close and a Cancel that succeed although every
`close_account` call fails, and one concrete aborted transition for each of
the seven result-checked custody calls failing. -/
theorem custody_result_checking_witness :
    (process_bid cex_env bidLedAccs 200 0).isOk = true ∧
    (closing_the_process close_fail_env closeOkAccs 0).isOk = true ∧
    (process_cancel close_fail_env cancelOpenAccs 0).isOk = true ∧
    (process_exhibit nft_fail_env exhibitAccs 100 1000 0).isOk = false ∧
    (process_exhibit auth_fail_env exhibitAccs 100 1000 0).isOk = false ∧
    (process_bid escrow_fail_env bidOpenAccs 200 0).isOk = false ∧
    (process_bid auth_fail_env bidOpenAccs 200 0).isOk = false ∧
    (process_cancel item_fail_env cancelOpenAccs 0).isOk = false ∧
    (closing_the_process item_fail_env closeOkAccs 0).isOk = false ∧
    (closing_the_process cex_env closeOkAccs 0).isOk = false :=
  ⟨custody_result_checking.1 cex_env bidLedAccs 200 0 rfl rfl (by decide) (by decide)
      rfl rfl rfl (by decide) rfl rfl,
   custody_result_checking.2.1 close_fail_env closeOkAccs 0 rfl rfl (by decide)
      rfl rfl rfl rfl rfl rfl rfl (by decide),
   custody_result_checking.2.2.1 close_fail_env cancelOpenAccs 0 rfl rfl rfl rfl rfl rfl
      (by decide),
   custody_result_checking.2.2.2.1 nft_fail_env exhibitAccs 100 1000 0 rfl,
   custody_result_checking.2.2.2.2.1 auth_fail_env exhibitAccs 100 1000 0 rfl,
   custody_result_checking.2.2.2.2.2.1 escrow_fail_env bidOpenAccs 200 0 rfl,
   custody_result_checking.2.2.2.2.2.2.1 auth_fail_env bidOpenAccs 200 0 rfl,
   custody_result_checking.2.2.2.2.2.2.2.1 item_fail_env cancelOpenAccs 0 rfl,
   custody_result_checking.2.2.2.2.2.2.2.2.1 item_fail_env closeOkAccs 0 rfl,
   custody_result_checking.2.2.2.2.2.2.2.2.2 cex_env closeOkAccs 0 rfl⟩

/-- C2, counterexample: a Close called after expiry (`now >= end_at`) by a
signing caller who is not the stored highest bidder fails with
`InvalidAccountData`, refuting "Close succeeds iff now >= end_at regardless
of who calls it". -/
theorem close_wrong_caller_cex :
    closeWrongCallerAccs.escrow_data.end_at ≤ closeWrongCallerAccs.now ∧
    closeWrongCallerAccs.highest_bidder_account.is_signer = true ∧
    closing_the_process all_ok_env closeWrongCallerAccs 0 =
      Except.error ProgramError.InvalidAccountData :=
  ⟨by decide, rfl, rfl⟩

/-- C2, amended: the temporal guard alone is only half of Close's
success condition.  (i) whenever the caller signs and the record is live
with `now < end_at`, Close fails with `ActiveAuction` (the temporal failure)
whatever accounts are supplied, and — the transition returning an error —
with no state change; (ii) a successful Close requires `end_at <= now`;
(iii) a successful Close additionally requires the caller to have signed and
matched the stored `highest_bidder_id`, and every supplied account reference
— exhibitor, item custody, proceeds receiving, leader's temp custody — to
have matched the corresponding record field, so success is not independent of
the caller or of the supplied accounts. -/
theorem close_temporal_guard :
    (∀ (env : TokenOp → Bool) (accs : CloseAccounts) (program_id : Pubkey),
      accs.highest_bidder_account.is_signer = true →
      accs.escrow_data.is_initialized = true →
      accs.now < accs.escrow_data.end_at →
      closing_the_process env accs program_id =
        Except.error (ProgramError.AuctionErr AuctionError.ActiveAuction)) ∧
    (∀ (env : TokenOp → Bool) (accs : CloseAccounts) (program_id : Pubkey)
      (r : SettleResult),
      closing_the_process env accs program_id = Except.ok r →
      accs.escrow_data.end_at ≤ accs.now) ∧
    (∀ (env : TokenOp → Bool) (accs : CloseAccounts) (program_id : Pubkey)
      (r : SettleResult),
      closing_the_process env accs program_id = Except.ok r →
      accs.highest_bidder_account.is_signer = true ∧
      accs.escrow_data.highest_bidder_pubkey = accs.highest_bidder_account.key ∧
      accs.escrow_data.exhibitor_pubkey = accs.accouint_of_exhibitor ∧
      accs.escrow_data.exhibiting_nft_temp_pubkey = accs.exhibiting_nft_temp_account ∧
      accs.escrow_data.exhibitor_ft_receiving_pubkey = accs.exhibitor_ft_receiving_account ∧
      accs.escrow_data.highest_bidder_ft_temp_pubkey = accs.highest_bidder_ft_temp_account) := by
  refine ⟨?_, ?_, ?_⟩
  · intro env accs program_id hs hi ht
    exact closing_active env accs program_id hs hi ht
  · intro env accs program_id r h
    obtain ⟨-, -, ht, -⟩ := closing_ok_inv env accs program_id h
    exact ht
  · intro env accs program_id r h
    obtain ⟨hs, -, -, m1, m2, m3, m4, m5, -⟩ := closing_ok_inv env accs program_id h
    exact ⟨hs, m5, m1, m2, m3, m4⟩

/-- Witness for C2's amended theorem: the winner's early Close fails with
`ActiveAuction`, and a concrete successful Close yields the temporal, the
caller-identity and the account-match consequences. -/
theorem close_temporal_guard_witness :
    (closing_the_process all_ok_env closeEarlyAccs 0 =
      Except.error (ProgramError.AuctionErr AuctionError.ActiveAuction)) ∧
    closeOkAccs.escrow_data.end_at ≤ closeOkAccs.now ∧
    (closeOkAccs.highest_bidder_account.is_signer = true ∧
     closeOkAccs.escrow_data.highest_bidder_pubkey = closeOkAccs.highest_bidder_account.key ∧
     closeOkAccs.escrow_data.exhibitor_pubkey = closeOkAccs.accouint_of_exhibitor ∧
     closeOkAccs.escrow_data.exhibiting_nft_temp_pubkey = closeOkAccs.exhibiting_nft_temp_account ∧
     closeOkAccs.escrow_data.exhibitor_ft_receiving_pubkey = closeOkAccs.exhibitor_ft_receiving_account ∧
     closeOkAccs.escrow_data.highest_bidder_ft_temp_pubkey = closeOkAccs.highest_bidder_ft_temp_account) :=
  ⟨close_temporal_guard.1 all_ok_env closeEarlyAccs 0 rfl rfl (by decide),
   close_temporal_guard.2.1 all_ok_env closeOkAccs 0 closeOkResult rfl,
   close_temporal_guard.2.2 all_ok_env closeOkAccs 0 closeOkResult rfl⟩

/-- C3: over any sequence of Bid attempts the recorded price never decreases;
a successful Bid strictly raises it to the bid amount; and a bid not strictly
above the current price is rejected with `InsufficientBidPrice` (leaving the
record unchanged, the transition returning an error). -/
theorem bid_price_strictly_increasing :
    (∀ (r : Auction) (bs : List BidAttempt),
      r.price ≤ (List.foldl bid_step r bs).price) ∧
    (∀ (env : TokenOp → Bool) (accs : BidAccounts) (price : Nat) (program_id : Pubkey)
      (out : Auction × List (TokenOp × Bool)),
      process_bid env accs price program_id = Except.ok out →
      accs.escrow_data.price < price ∧ out.1.price = price) ∧
    (∀ (env : TokenOp → Bool) (accs : BidAccounts) (price : Nat) (program_id : Pubkey),
      accs.bidder_account.is_signer = true →
      accs.escrow_data.is_initialized = true →
      accs.now < accs.escrow_data.end_at →
      price ≤ accs.escrow_data.price →
      process_bid env accs price program_id =
        Except.error (ProgramError.AuctionErr AuctionError.InsufficientBidPrice)) := by
  refine ⟨?_, ?_, ?_⟩
  · intro r bs
    induction bs generalizing r with
    | nil => simp
    | cons b bs ih =>
        simpa using le_trans (bid_step_price_le r b) (ih (bid_step r b))
  · intro env accs price program_id out h
    obtain ⟨-, -, -, hp, -, -, -, -, -, -, hout⟩ :=
      process_bid_ok_inv env accs price program_id h
    subst hout
    exact ⟨hp, rfl⟩
  · intro env accs price program_id hs hi ht hp
    have ht' : ¬ (accs.escrow_data.end_at ≤ accs.now) := not_le.mpr ht
    simp [process_bid, Auction.unpack, hs, hi, ht', hp]

/-- Witness for C3: a concrete fold step, a concrete strictly-raising Bid of
200 over asking price 100, and a concrete rejected Bid of 90 against current
price 100. -/
theorem bid_price_strictly_increasing_witness :
    sampleOpen.price ≤ (List.foldl bid_step sampleOpen [sampleAttempt]).price ∧
    (bidOpenAccs.escrow_data.price < 200 ∧ bidOpenResult.1.price = 200) ∧
    process_bid all_ok_env bidOpenAccs 90 0 =
      Except.error (ProgramError.AuctionErr AuctionError.InsufficientBidPrice) :=
  ⟨bid_price_strictly_increasing.1 sampleOpen [sampleAttempt],
   bid_price_strictly_increasing.2.1 all_ok_env bidOpenAccs 200 0 bidOpenResult rfl,
   bid_price_strictly_increasing.2.2 all_ok_env bidOpenAccs 90 0 rfl rfl (by decide)
     (by decide)⟩

/-- C4: when every custody call succeeds, a successful Bid against a record
with a previous leader issues — after the two calls escrowing the new bid —
exactly a transfer of the stored previous `price` from the stored previous
leader's temporary custody to the stored refund account, followed by the
close of that temporary custody back to the previous leader; and the updated
record carries the new price and the new bidder's identifiers.  With no
previous leader (`highest_bidder_pubkey` default) no refund or close is
issued. -/
theorem bid_refund_effects :
    ∀ (env : TokenOp → Bool) (accs : BidAccounts) (price : Nat) (program_id : Pubkey)
      (out : Auction × List (TokenOp × Bool)),
      (∀ op, env op = true) →
      process_bid env accs price program_id = Except.ok out →
      (accs.escrow_data.highest_bidder_pubkey ≠ Pubkey.default →
        out.2 = [(TokenOp.transfer accs.bidder_ft_account accs.bidder_ft_temp_account
                    accs.bidder_account.key price, true),
                 (TokenOp.setAuthority accs.bidder_ft_temp_account
                    (find_program_address program_id) accs.bidder_account.key, true),
                 (TokenOp.transfer accs.escrow_data.highest_bidder_ft_temp_pubkey
                    accs.escrow_data.highest_bidder_ft_returning_pubkey
                    (find_program_address program_id) accs.escrow_data.price, true),
                 (TokenOp.closeAccount accs.escrow_data.highest_bidder_ft_temp_pubkey
                    accs.escrow_data.highest_bidder_pubkey
                    (find_program_address program_id), true)]) ∧
      (accs.escrow_data.highest_bidder_pubkey = Pubkey.default →
        out.2 = [(TokenOp.transfer accs.bidder_ft_account accs.bidder_ft_temp_account
                    accs.bidder_account.key price, true),
                 (TokenOp.setAuthority accs.bidder_ft_temp_account
                    (find_program_address program_id) accs.bidder_account.key, true)]) ∧
      out.1.price = price ∧
      out.1.highest_bidder_pubkey = accs.bidder_account.key ∧
      out.1.highest_bidder_ft_temp_pubkey = accs.bidder_ft_temp_account ∧
      out.1.highest_bidder_ft_returning_pubkey = accs.bidder_ft_account := by
  intro env accs price program_id out henv h
  obtain ⟨-, -, -, -, m1, m2, m3, -, -, -, hout⟩ :=
    process_bid_ok_inv env accs price program_id h
  subst hout
  refine ⟨?_, ?_, rfl, rfl, rfl, rfl⟩
  · intro hb
    have hb' : accs.highest_bidder_account ≠ Pubkey.default := m3 ▸ hb
    simp [close_temporary_ft, hb', henv, m1, m2, m3]
  · intro hb
    simp [hb]

/-- Witness for C4: bidder 10 outbids leader 7 with every call succeeding —
the trace refunds exactly 150 from custody 8 to refund account 9 and closes
custody 8 to bidder 7; and a first bid on a fresh record issues no refund. -/
theorem bid_refund_effects_witness :
    ((⟨true, 1, 2, 3, 200, 1000, 10, 11, 12⟩ : Auction),
      [(TokenOp.transfer 12 11 10 200, true),
       (TokenOp.setAuthority 11 1 10, true),
       (TokenOp.transfer 8 9 1 150, true),
       (TokenOp.closeAccount 8 7 1, true)]).2 =
      [(TokenOp.transfer bidLedAccs.bidder_ft_account bidLedAccs.bidder_ft_temp_account
          bidLedAccs.bidder_account.key 200, true),
       (TokenOp.setAuthority bidLedAccs.bidder_ft_temp_account
          (find_program_address 0) bidLedAccs.bidder_account.key, true),
       (TokenOp.transfer bidLedAccs.escrow_data.highest_bidder_ft_temp_pubkey
          bidLedAccs.escrow_data.highest_bidder_ft_returning_pubkey
          (find_program_address 0) bidLedAccs.escrow_data.price, true),
       (TokenOp.closeAccount bidLedAccs.escrow_data.highest_bidder_ft_temp_pubkey
          bidLedAccs.escrow_data.highest_bidder_pubkey
          (find_program_address 0), true)] ∧
    bidOpenResult.2 =
      [(TokenOp.transfer bidOpenAccs.bidder_ft_account bidOpenAccs.bidder_ft_temp_account
          bidOpenAccs.bidder_account.key 200, true),
       (TokenOp.setAuthority bidOpenAccs.bidder_ft_temp_account
          (find_program_address 0) bidOpenAccs.bidder_account.key, true)] :=
  ⟨(bid_refund_effects all_ok_env bidLedAccs 200 0 _ (fun op => rfl) rfl).1 (by decide),
   (bid_refund_effects all_ok_env bidOpenAccs 200 0 bidOpenResult (fun op => rfl) rfl).2.1 rfl⟩

/-- C5: on a live record, with the custody service succeeding and the lamport
reclamation in range, Cancel succeeds exactly when the caller signs and
matches the stored exhibitor, the supplied item-custody reference matches the
stored one, and no bid has ever succeeded (`highest_bidder_pubkey` default);
and when those guards hold but a bidder exists, it fails with `AlreadyBid`
(the transition returning an error, hence no state change). -/
theorem cancel_guard_characterization :
    ∀ (env : TokenOp → Bool) (accs : CancelAccounts) (program_id : Pubkey),
      (∀ op, env op = true) →
      accs.escrow_data.is_initialized = true →
      accs.exhibitor_lamports + accs.escrow_lamports < 2 ^ 64 →
      (((process_cancel env accs program_id).isOk = true) ↔
        (accs.accouint_of_exhibitor.is_signer = true ∧
         accs.escrow_data.exhibitor_pubkey = accs.accouint_of_exhibitor.key ∧
         accs.escrow_data.exhibiting_nft_temp_pubkey = accs.exhibiting_nft_temp_account ∧
         accs.escrow_data.highest_bidder_pubkey = Pubkey.default)) ∧
      (accs.accouint_of_exhibitor.is_signer = true →
       accs.escrow_data.exhibitor_pubkey = accs.accouint_of_exhibitor.key →
       accs.escrow_data.exhibiting_nft_temp_pubkey = accs.exhibiting_nft_temp_account →
       accs.escrow_data.highest_bidder_pubkey ≠ Pubkey.default →
       process_cancel env accs program_id =
         Except.error (ProgramError.AuctionErr AuctionError.AlreadyBid)) := by
  intro env accs program_id henv hi hl
  constructor
  · constructor
    · intro hok
      cases hres : process_cancel env accs program_id with
      | ok r =>
          obtain ⟨hs, -, m1, m2, hb, -⟩ := process_cancel_ok_inv env accs program_id hres
          exact ⟨hs, m1, m2, hb⟩
      | error e =>
          rw [hres] at hok
          simp [Except.isOk, Except.toBool] at hok
    · rintro ⟨hs, m1, m2, hb⟩
      rw [process_cancel_success env accs program_id hs hi m1 m2 hb (henv _) hl]
      rfl
  · intro hs m1 m2 hb
    exact process_cancel_already_bid env accs program_id hs hi m1 m2 hb

/-- Witness for C5: the exhibitor's Cancel of a bid-free record succeeds, and
the same exhibitor's Cancel of a record with leader 7 fails with
`AlreadyBid`. -/
theorem cancel_guard_characterization_witness :
    (process_cancel all_ok_env cancelOpenAccs 0).isOk = true ∧
    process_cancel all_ok_env cancelLedAccs 0 =
      Except.error (ProgramError.AuctionErr AuctionError.AlreadyBid) :=
  ⟨(cancel_guard_characterization all_ok_env cancelOpenAccs 0 (fun op => rfl) rfl
      (by decide)).1.mpr ⟨rfl, rfl, rfl, rfl⟩,
   (cancel_guard_characterization all_ok_env cancelLedAccs 0 (fun op => rfl) rfl
      (by decide)).2 rfl rfl rfl (by decide)⟩

/-- C6: a successful Close issues exactly four custody operations, in order:
(1) transfer of the item custody account's live balance to the winner's
receiving account, (2) transfer of the leader's temporary custody account's
live balance to the stored proceeds account, (3) close of the leader's
temporary custody account with its storage balance reclaimed to the stored
winner, (4) close of the item custody account reclaimed to the stored
exhibitor — and the record is destroyed, its storage balance moved to the
exhibitor. -/
theorem close_effect_order :
    ∀ (env : TokenOp → Bool) (accs : CloseAccounts) (program_id : Pubkey)
      (r : SettleResult),
      closing_the_process env accs program_id = Except.ok r →
      r.ops.map Prod.fst =
        [TokenOp.transfer accs.exhibiting_nft_temp_account
           accs.highest_bidder_nft_receiving_account (find_program_address program_id)
           accs.exhibiting_nft_temp_amount,
         TokenOp.transfer accs.escrow_data.highest_bidder_ft_temp_pubkey
           accs.exhibitor_ft_receiving_account (find_program_address program_id)
           accs.highest_bidder_ft_temp_amount,
         TokenOp.closeAccount accs.escrow_data.highest_bidder_ft_temp_pubkey
           accs.escrow_data.highest_bidder_pubkey (find_program_address program_id),
         TokenOp.closeAccount accs.exhibiting_nft_temp_account
           accs.escrow_data.exhibitor_pubkey (find_program_address program_id)] ∧
      r.escrow_data = none ∧
      r.escrow_lamports = 0 ∧
      r.exhibitor_lamports = accs.exhibitor_lamports + accs.escrow_lamports := by
  intro env accs program_id r h
  obtain ⟨-, -, -, m1, -, -, m4, m5, -, -, -, hr⟩ := closing_ok_inv env accs program_id h
  subst hr
  refine ⟨?_, rfl, rfl, rfl⟩
  simp [m1, m4, m5]

/-- Witness for C6: the winner's settlement of `sampleLed` issues item
transfer, currency transfer, leader-custody close, item-custody close in
that order and destroys the record. -/
theorem close_effect_order_witness :
    closeOkResult.ops.map Prod.fst =
      [TokenOp.transfer closeOkAccs.exhibiting_nft_temp_account
         closeOkAccs.highest_bidder_nft_receiving_account (find_program_address 0)
         closeOkAccs.exhibiting_nft_temp_amount,
       TokenOp.transfer closeOkAccs.escrow_data.highest_bidder_ft_temp_pubkey
         closeOkAccs.exhibitor_ft_receiving_account (find_program_address 0)
         closeOkAccs.highest_bidder_ft_temp_amount,
       TokenOp.closeAccount closeOkAccs.escrow_data.highest_bidder_ft_temp_pubkey
         closeOkAccs.escrow_data.highest_bidder_pubkey (find_program_address 0),
       TokenOp.closeAccount closeOkAccs.exhibiting_nft_temp_account
         closeOkAccs.escrow_data.exhibitor_pubkey (find_program_address 0)] ∧
    closeOkResult.escrow_data = none ∧
    closeOkResult.escrow_lamports = 0 ∧
    closeOkResult.exhibitor_lamports =
      closeOkAccs.exhibitor_lamports + closeOkAccs.escrow_lamports :=
  close_effect_order all_ok_env closeOkAccs 0 closeOkResult rfl

/-- C7: a Close attempted on a record on which no bid has ever succeeded
(`highest_bidder_pubkey` still the default value) is rejected for every
signing caller whose identity is not the keyless default sentinel (no real
caller can sign for the default identity, which the program uses to mean "no
bidder yet"). -/
theorem close_no_bidder_rejected :
    ∀ (env : TokenOp → Bool) (accs : CloseAccounts) (program_id : Pubkey),
      accs.escrow_data.highest_bidder_pubkey = Pubkey.default →
      accs.highest_bidder_account.is_signer = true →
      accs.highest_bidder_account.key ≠ Pubkey.default →
      (closing_the_process env accs program_id).isOk = false := by
  intro env accs program_id hd hs hk
  cases hres : closing_the_process env accs program_id with
  | ok r =>
      obtain ⟨-, -, -, -, -, -, -, m5, -, -⟩ := closing_ok_inv env accs program_id hres
      rw [hd] at m5
      exact absurd m5.symm hk
  | error e => simp [Except.isOk, Except.toBool]

/-- Witness for C7: a signing stranger's Close of the never-bid `sampleOpen`
after expiry is rejected. -/
theorem close_no_bidder_rejected_witness :
    (closing_the_process all_ok_env closeNoBidAccs 0).isOk = false :=
  close_no_bidder_rejected all_ok_env closeNoBidAccs 0 rfl rfl (by decide)

/-- C8: Create fails with `MissingRequiredSignature` when the exhibitor does
not sign, with `NotRentExempt` when the storage account is not persistently
funded, and with `AccountAlreadyInitialized` when the slot already holds a
live record (each an error, hence no state change); and when the guards hold,
both custody calls succeed and the timestamp arithmetic stays in `i64` range,
it returns the record populated with the exhibitor's identifiers,
`price = initial_price`, `end_at = now + duration` and
`is_initialized = true`. -/
theorem create_guards_and_effects :
    (∀ (env : TokenOp → Bool) (accs : ExhibitAccounts) (initial_price duration : Nat)
      (program_id : Pubkey),
      accs.accouint_of_exhibitor.is_signer = false →
      process_exhibit env accs initial_price duration program_id =
        Except.error ProgramError.MissingRequiredSignature) ∧
    (∀ (env : TokenOp → Bool) (accs : ExhibitAccounts) (initial_price duration : Nat)
      (program_id : Pubkey),
      accs.accouint_of_exhibitor.is_signer = true →
      accs.escrow_rent_exempt = false →
      process_exhibit env accs initial_price duration program_id =
        Except.error (ProgramError.AuctionErr AuctionError.NotRentExempt)) ∧
    (∀ (env : TokenOp → Bool) (accs : ExhibitAccounts) (initial_price duration : Nat)
      (program_id : Pubkey),
      accs.accouint_of_exhibitor.is_signer = true →
      accs.escrow_rent_exempt = true →
      accs.escrow_data.is_initialized = true →
      process_exhibit env accs initial_price duration program_id =
        Except.error ProgramError.AccountAlreadyInitialized) ∧
    (∀ (env : TokenOp → Bool) (accs : ExhibitAccounts) (initial_price duration : Nat)
      (program_id : Pubkey),
      accs.accouint_of_exhibitor.is_signer = true →
      accs.escrow_rent_exempt = true →
      accs.escrow_data.is_initialized = false →
      env (TokenOp.transfer accs.exhibitor_nft_account accs.exhibitor_nft_temp_account
        accs.accouint_of_exhibitor.key 1) = true →
      env (TokenOp.setAuthority accs.exhibitor_nft_temp_account
        (find_program_address program_id) accs.accouint_of_exhibitor.key) = true →
      duration < 2 ^ 63 →
      -(2 ^ 63) ≤ accs.now + (duration : Int) →
      accs.now + (duration : Int) < 2 ^ 63 →
      process_exhibit env accs initial_price duration program_id =
        Except.ok
          ({ accs.escrow_data with
             is_initialized := true,
             exhibitor_pubkey := accs.accouint_of_exhibitor.key,
             exhibiting_nft_temp_pubkey := accs.exhibitor_nft_temp_account,
             exhibitor_ft_receiving_pubkey := accs.exhibitor_ft_receiving_account,
             price := initial_price,
             end_at := accs.now + (duration : Int) },
           [(TokenOp.transfer accs.exhibitor_nft_account accs.exhibitor_nft_temp_account
               accs.accouint_of_exhibitor.key 1, true),
            (TokenOp.setAuthority accs.exhibitor_nft_temp_account
               (find_program_address program_id) accs.accouint_of_exhibitor.key, true)])) := by
  refine ⟨?_, ?_, ?_, ?_⟩
  · intro env accs initial_price duration program_id hs
    simp [process_exhibit, hs]
  · intro env accs initial_price duration program_id hs hr
    simp [process_exhibit, hs, hr]
  · intro env accs initial_price duration program_id hs hr hi
    simp [process_exhibit, hs, hr, hi]
  · intro env accs initial_price duration program_id hs hr hi e1 e2 hd h1 h2
    simp [process_exhibit, hs, hr, hi, e1, e2, i64_add_cast accs.now duration hd h1 h2]

/-- Witness for C8: the three concrete failures (unsigned, rent failure,
occupied slot) and a concrete successful Create(100, 1000) at time 0 yielding
`end_at = 1000`. -/
theorem create_guards_and_effects_witness :
    process_exhibit all_ok_env exhibitNoSigAccs 100 1000 0 =
      Except.error ProgramError.MissingRequiredSignature ∧
    process_exhibit all_ok_env exhibitNoRentAccs 100 1000 0 =
      Except.error (ProgramError.AuctionErr AuctionError.NotRentExempt) ∧
    process_exhibit all_ok_env exhibitInitAccs 100 1000 0 =
      Except.error ProgramError.AccountAlreadyInitialized ∧
    process_exhibit all_ok_env exhibitAccs 100 1000 0 =
      Except.ok (⟨true, 1, 2, 3, 100, 1000, 0, 0, 0⟩,
        [(TokenOp.transfer 4 2 1 1, true), (TokenOp.setAuthority 2 1 1, true)]) :=
  ⟨create_guards_and_effects.1 all_ok_env exhibitNoSigAccs 100 1000 0 rfl,
   create_guards_and_effects.2.1 all_ok_env exhibitNoRentAccs 100 1000 0 rfl rfl,
   create_guards_and_effects.2.2.1 all_ok_env exhibitInitAccs 100 1000 0 rfl rfl rfl,
   create_guards_and_effects.2.2.2 all_ok_env exhibitAccs 100 1000 0 rfl rfl rfl rfl rfl
     (by decide) (by decide) (by decide)⟩

/-- C9: Cancel consults no time source (its inputs carry no clock reading at
all, mirroring the source, which loads no clock sysvar in `process_cancel`):
for every time value `now`, even one strictly past the stored `end_at`, an
exhibitor-signed Cancel of a bid-free record still succeeds. -/
theorem cancel_ignores_time :
    ∀ (now : Int) (env : TokenOp → Bool) (accs : CancelAccounts) (program_id : Pubkey),
      accs.escrow_data.end_at < now →
      accs.accouint_of_exhibitor.is_signer = true →
      accs.escrow_data.is_initialized = true →
      accs.escrow_data.exhibitor_pubkey = accs.accouint_of_exhibitor.key →
      accs.escrow_data.exhibiting_nft_temp_pubkey = accs.exhibiting_nft_temp_account →
      accs.escrow_data.highest_bidder_pubkey = Pubkey.default →
      env (TokenOp.transfer accs.exhibiting_nft_temp_account
        accs.exhibiting_nft_returning_account (find_program_address program_id)
        accs.exhibiting_nft_temp_amount) = true →
      accs.exhibitor_lamports + accs.escrow_lamports < 2 ^ 64 →
      (process_cancel env accs program_id).isOk = true := by
  intro now env accs program_id hlate hs hi m1 m2 hb e1 hl
  rw [process_cancel_success env accs program_id hs hi m1 m2 hb e1 hl]
  rfl

/-- Witness for C9: at time 2000, well past `sampleOpen`'s expiry 1000, the
exhibitor's Cancel still succeeds. -/
theorem cancel_ignores_time_witness :
    (process_cancel all_ok_env cancelOpenAccs 0).isOk = true :=
  cancel_ignores_time 2000 all_ok_env cancelOpenAccs 0 (by decide) rfl rfl rfl rfl rfl
    rfl (by decide)

/-- C10: after every successful Bid the stored refund identifier
(`highest_bidder_ft_returning_pubkey`) is the bidder's funding source account
— the very account the first issued custody call drew the bid amount from —
while the separately supplied temporary custody account is stored in
`highest_bidder_ft_temp_pubkey`; whenever the two supplied accounts differ,
the stored refund identifier therefore differs from the stored temporary
custody identifier. -/
theorem bid_refund_id_is_funding_source :
    ∀ (env : TokenOp → Bool) (accs : BidAccounts) (price : Nat) (program_id : Pubkey)
      (out : Auction × List (TokenOp × Bool)),
      process_bid env accs price program_id = Except.ok out →
      out.1.highest_bidder_ft_returning_pubkey = accs.bidder_ft_account ∧
      out.1.highest_bidder_ft_temp_pubkey = accs.bidder_ft_temp_account ∧
      out.2.head? = some (TokenOp.transfer accs.bidder_ft_account
        accs.bidder_ft_temp_account accs.bidder_account.key price, true) ∧
      (accs.bidder_ft_account ≠ accs.bidder_ft_temp_account →
        out.1.highest_bidder_ft_returning_pubkey ≠ out.1.highest_bidder_ft_temp_pubkey) := by
  intro env accs price program_id out h
  obtain ⟨-, -, -, -, -, -, -, -, -, -, hout⟩ :=
    process_bid_ok_inv env accs price program_id h
  subst hout
  exact ⟨rfl, rfl, rfl, fun hne => by simpa using hne⟩

/-- Witness for C10: bidder 10 funds the bid from account 12 into temporary
custody 11; the updated record stores 12 as the refund identifier and 11 as
the temporary custody identifier. -/
theorem bid_refund_id_is_funding_source_witness :
    bidOpenResult.1.highest_bidder_ft_returning_pubkey = bidOpenAccs.bidder_ft_account ∧
    bidOpenResult.1.highest_bidder_ft_temp_pubkey = bidOpenAccs.bidder_ft_temp_account ∧
    bidOpenResult.2.head? = some (TokenOp.transfer bidOpenAccs.bidder_ft_account
      bidOpenAccs.bidder_ft_temp_account bidOpenAccs.bidder_account.key 200, true) ∧
    (bidOpenAccs.bidder_ft_account ≠ bidOpenAccs.bidder_ft_temp_account →
      bidOpenResult.1.highest_bidder_ft_returning_pubkey ≠
        bidOpenResult.1.highest_bidder_ft_temp_pubkey) :=
  bid_refund_id_is_funding_source all_ok_env bidOpenAccs 200 0 bidOpenResult rfl
